import Mathlib

/-!
Shallow embedding of `pp_run.py`, the orchestration wrapper of the photometry
pipeline.  The out-of-scope collaborators (prepare, register, photometry,
calibrate, distill, the diagnostics reporter) are modelled as oracles carried
in an `Env` record; `run_the_pipeline` itself is translated statement by
statement, including its control-flow slips (the index-shifting `pop` inside
the header loop, the missing `break` in the key scan, the misspelled variable
in the multi-instrument branch, and the character-class regular expression of
the batch dispatcher).  Numeric summary formatting (floating point `%5.2f`
interpolation) is abstracted into message constructors; every branch decision
of the source is kept.
-/

/-- A FITS primary header as the orchestrator inspects it: ordered
key-value pairs, `header[key]` returning the first value for `key`. -/
abbrev Header := List (String × String)

/-- Lookup `header[key]`: the value of the first pair carrying `key`. -/
def headerGet (h : Header) (k : String) : Option String :=
  (h.find? (fun p => p.1 == k)).map (fun p => p.2)

/-- Tags one header contributes, per the source loop
`for key in keys: if key in header: tags.append(header[key])`.
The loop has no `break`, so every present candidate key contributes a tag,
in configured key-list order. -/
def tagsOf (keys : List String) (h : Header) : List String :=
  keys.filterMap (fun k => headerGet h k)

/-- Result of the header-inspection loop (`pp_run.py` lines 80-96):
the surviving file list, the accumulated instrument and filter tags, and the
files whose open failed. -/
structure ScanResult where
  retained : List String
  instruments : List String
  filters : List String
  openErrors : List String
deriving DecidableEq, Repr

/-- The header-inspection loop.  The source iterates with
`for idx, filename in enumerate(filenames)` and calls `filenames.pop(idx)`
on an open failure; because the list iterator has already advanced, the
element immediately after a popped one is never visited: it stays in the
list but is not opened and contributes no tags.  The structural recursion
below reproduces exactly that index semantics. -/
def headerScan (openH : String → Option Header) (kI kF : List String) :
    List String → ScanResult
  | [] => ⟨[], [], [], []⟩
  | [f] =>
    match openH f with
    | some h => ⟨[f], tagsOf kI h, tagsOf kF h, []⟩
    | none => ⟨[], [], [], [f]⟩
  | f :: g :: rest2 =>
    match openH f with
    | some h =>
      let s := headerScan openH kI kF (g :: rest2)
      ⟨f :: s.retained, tagsOf kI h ++ s.instruments,
       tagsOf kF h ++ s.filters, s.openErrors⟩
    | none =>
      let s := headerScan openH kI kF rest2
      ⟨g :: s.retained, s.instruments, s.filters, f :: s.openErrors⟩

/-- The five processing stages invoked by the orchestrator. -/
inductive Stage
  | prepare
  | register
  | photometry
  | calibrate
  | distill
deriving DecidableEq, Repr

/-- Shape of a summary string handed to `diag.insert_into_summary`;
one constructor per branch of the source, numeric interpolation abstracted. -/
inductive SummaryMsg
  | regAll
  | regNone
  | regPartial (nbad ntot : Nat)
  | phot (targetBased : Bool)
  | calibNone
  | calibZp
  | distillTarget
  | distillNoTarget
deriving DecidableEq, Repr

/-- Observable events of one run, in emission order. -/
inductive Ev
  | openError (f : String)
  | logError (msg : String)
  | pairReport (file tag : String)
  | stage (s : Stage)
  | summary (m : SummaryMsg)
  | abort (tag : String)
deriving DecidableEq, Repr

/-- How `run_the_pipeline` terminates.  `retStop` is `return 0` (used both
for the no-calibration-filter stop and the registration abort), `retDone` is
falling off the end; the remaining constructors are process-terminating
exceptions or `sys.exit` calls. -/
inductive RunOutcome
  | retStop
  | retDone
  | crashNameError
  | exitMultiFilter
  | exitCalib
  | crashIndexError
  | raisedEmptyBatch
  | raisedNoInstrument
  | raisedNoFilter
  | raisedUnknownInstrument
  | raisedUnknownTelescope
  | raisedUnknownFilter
deriving DecidableEq, Repr

/-- The slice of `_pp_conf.telescope_parameters[telescope]` the orchestrator
reads: `source_minarea`, `aprad_default`, and the filter-translation table
(whose values may be the `None` no-calibration sentinel). -/
structure Obsparam where
  source_minarea : Nat
  aprad_default : Nat
  filter_translations : List (String × Option String)
deriving DecidableEq, Repr

/-- The `_pp_conf` configuration the orchestrator consults. -/
structure Conf where
  instrument_keys : List String
  filter_keys : List String
  instrument_identifiers : List (String × String)
  telescope_parameters : List (String × Obsparam)
  minstars : Nat

/-- Result of `pp_register.register`. -/
structure RegResult where
  goodfits : List String
  badfits : List String
deriving DecidableEq, Repr

/-- Result of `pp_photometry.photometry` as consumed by the orchestrator. -/
structure PhotResult where
  optimum_aprad : Int
  n_target : Nat
deriving DecidableEq, Repr

/-- One zeropoint record of the calibration result (floats modelled as
integers; only the `all(zp == 0)` test is consumed). -/
structure ZeroPoint where
  zp : Int
  zp_sig : Int
deriving DecidableEq, Repr

/-- Result of `pp_calibrate.calibrate` when it does not fail. -/
structure CalibResult where
  zeropoints : List ZeroPoint
  ref_cat : String
  catalogs : List String
deriving DecidableEq, Repr

/-- Result of `pp_distill.distill` as consumed by the orchestrator:
the keys of `distillate['targetnames']`. -/
structure DistillResult where
  targetnames : List String
deriving DecidableEq, Repr

/-- Oracles for the out-of-scope collaborators: what each external stage
returns for the frame list it is handed (`None` from calibrate is the
failure signal). -/
structure Env where
  openH : String → Option Header
  registerResult : List String → RegResult
  photResult : List String → PhotResult
  calibResult : List String → Option CalibResult
  distillResult : List String → DistillResult

/-- Context established by the validation part of the run: surviving files,
resolved telescope, its parameters, and the canonical filter name
(`none` is the no-calibration sentinel). -/
structure Ctx where
  retained : List String
  telescope : String
  obsparam : Obsparam
  filtername : Option String
deriving DecidableEq, Repr

/-- Outcome of the validation part: either a terminating outcome or a
context for the stage sequence, along with the events emitted so far. -/
inductive Phase1Out
  | fail (o : RunOutcome) (evs : List Ev)
  | ok (ctx : Ctx) (evs : List Ev)
deriving DecidableEq, Repr

/-- Number of distinct tags, as `len(set(tags))`. -/
def distinctCount (l : List String) : Nat := l.eraseDups.length

/-- The per-file diagnostic loop of the multi-filter branch:
`for i in range(len(filenames)): logging.error(filenames[i], tags[i])`;
runs out of tags with an IndexError (second component `false`). -/
def pairLoop : List String → List String → List Ev × Bool
  | [], _ => ([], true)
  | _ :: _, [] => ([], false)
  | f :: fs, t :: ts =>
    let r := pairLoop fs ts
    (Ev.pairReport f t :: r.1, r.2)

/-- Lines 80-133 of `pp_run.py`: header scan, emptiness checks, instrument
homogeneity check (whose console print evaluates the misspelled name
`instruemnts` and raises NameError before any per-file pair is reported),
registry lookups, filter homogeneity check, and filter translation. -/
def phase1 (cfg : Conf) (env : Env) (files : List String) : Phase1Out :=
  let s := headerScan env.openH cfg.instrument_keys cfg.filter_keys files
  let evs := s.openErrors.map Ev.openError
  if s.retained.isEmpty then .fail .raisedEmptyBatch evs
  else if s.instruments.isEmpty then .fail .raisedNoInstrument evs
  else if s.filters.isEmpty then .fail .raisedNoFilter evs
  else if distinctCount s.instruments > 1 then
    .fail .crashNameError evs
  else
    match cfg.instrument_identifiers.lookup (s.instruments.headD "") with
    | none => .fail .raisedUnknownInstrument evs
    | some tel =>
      match cfg.telescope_parameters.lookup tel with
      | none => .fail .raisedUnknownTelescope evs
      | some obs =>
        if distinctCount s.filters > 1 then
          let r := pairLoop s.retained s.filters
          .fail (if r.2 then .exitMultiFilter else .crashIndexError)
            (evs ++ Ev.logError "multiple filters used in dataset" :: r.1)
        else
          match obs.filter_translations.lookup (s.filters.headD "") with
          | none => .fail .raisedUnknownFilter evs
          | some fn => .ok ⟨s.retained, tel, obs, fn⟩ evs

/-- Registration summary branch (lines 157-166). -/
def registerSummary (ngood nbad ntot : Nat) : SummaryMsg :=
  if ngood = ntot then .regAll
  else if ngood = 0 then .regNone
  else .regPartial nbad ntot

/-- A summary insertion guarded by `_pp_conf.use_diagnostics_summary`. -/
def condSummary (useDiag : Bool) (m : SummaryMsg) : List Ev :=
  if useDiag then [.summary m] else []

/-- Lines 139-273 of `pp_run.py`: the stage sequence from `pp_prepare`
onward, given a validated context. -/
def phase2 (env : Env) (useDiag : Bool) (ctx : Ctx) : RunOutcome × List Ev :=
  let reg := env.registerResult ctx.retained
  let base := [Ev.stage .prepare, Ev.stage .register] ++
    condSummary useDiag
      (registerSummary reg.goodfits.length reg.badfits.length
        ctx.retained.length)
  match ctx.filtername with
  | none => (.retStop, base)
  | some _ =>
    if reg.goodfits.isEmpty then
      (.retStop, base ++ [Ev.abort "pp_registration"])
    else
      let phot := env.photResult reg.goodfits
      let afterPhot := base ++ [Ev.stage .photometry] ++
        condSummary useDiag (.phot (decide (phot.n_target > 0)))
      match env.calibResult reg.goodfits with
      | none =>
        (.exitCalib, afterPhot ++ [Ev.stage .calibrate, Ev.abort "pp_calibrate"])
      | some cal =>
        let afterCal := afterPhot ++ [Ev.stage .calibrate] ++
          condSummary useDiag
            (if cal.zeropoints.all (fun z => z.zp == 0) then .calibNone
             else .calibZp)
        let d := env.distillResult cal.catalogs
        let trace := afterCal ++ [Ev.stage .distill] ++
          condSummary useDiag
            (if (d.targetnames.filter (fun t => t ≠ "control_star")).isEmpty
             then .distillNoTarget else .distillTarget)
        (.retDone, trace)

/-- The whole of `run_the_pipeline`: validation, then the stage sequence. -/
def runPipeline (cfg : Conf) (env : Env) (useDiag : Bool)
    (files : List String) : RunOutcome × List Ev :=
  match phase1 cfg env files with
  | .fail o evs => (o, evs)
  | .ok ctx evs =>
    let r := phase2 env useDiag ctx
    (r.1, evs ++ r.2)

/-- Characters of the character class `[fits|FITS|Fits|fts|FTS]` of the
dispatcher pattern (line 303); square brackets make it a class, so it
mfiles exactly one of these characters. -/
def fitsClassChars : List Char := ['f', 'i', 't', 's', '|', 'F', 'I', 'T', 'S']

/-- True when no character of the list is a newline (which `.` in the
pattern cannot match). -/
def noNewline (l : List Char) : Bool := l.all (fun c => c != '\n')

/-- Semantics of the pattern fragment `.*[fits|FITS|Fits|fts|FTS]$` on the
remainder after the literal lead: the remainder ends (or ends just before a
final newline, which `$` also accepts) in one class character, with only
non-newline characters before it. -/
def tailMatch (r : List Char) : Bool :=
  (match r.getLast? with
   | some c => fitsClassChars.contains c && noNewline r.dropLast
   | none => false) ||
  (match r.dropLast.getLast? with
   | some c =>
     (r.getLast? == some '\n') && fitsClassChars.contains c &&
       noNewline (r.dropLast.dropLast)
   | none => false)

/-- Semantics of `re.match(re.compile(chr(94) + pre + r), s)` for the
dispatcher pattern, `pre` taken as a literal (metacharacter-free) lead. -/
def ppMatch (pre : List Char) (s : List Char) : Bool :=
  pre.isPrefixOf s && tailMatch (s.drop pre.length)

/-- String form of the dispatcher filename test. -/
def ppMatchStr (pre s : String) : Bool := ppMatch pre.toList s.toList

/-- Code-point comparison of strings, as Python compares them in `sorted`. -/
def strLeB : List Char → List Char → Bool
  | [], _ => true
  | _ :: _, [] => false
  | a :: as, b :: bs =>
    if a.val < b.val then true
    else if b.val < a.val then false
    else strLeB as bs

/-- Insertion step of the lexicographic sort. -/
def insertSorted (x : String) : List String → List String
  | [] => [x]
  | y :: ys =>
    if strLeB x.toList y.toList then x :: y :: ys else y :: insertSorted x ys

/-- Python `sorted` on filenames (insertion sort; same output on the
distinct names involved here). -/
def sortFiles : List String → List String
  | [] => []
  | x :: xs => insertSorted x (sortFiles xs)

/-- One directory yielded by `os.walk`: its path and the plain files in it. -/
structure WalkDir where
  root : String
  files : List String
deriving DecidableEq, Repr

/-- True for the outcomes that terminate the whole process (uncaught
exceptions and `sys.exit` calls); `return 0` and falling off the end hand
control back to the dispatcher loop. -/
def isProcessExit : RunOutcome → Bool
  | .retStop => false
  | .retDone => false
  | _ => true

/-- Observable result of the batch dispatch: the pipeline invocations made
(directory, sorted matched files), the working directory right after each
invocation, the working directory when the dispatch ends, and whether the
walk ran to completion (false when a run killed the process). -/
structure DispatchResult where
  invocations : List (String × List String)
  cwdAfterInvocation : List String
  finalCwd : String
  completed : Bool
deriving DecidableEq, Repr

/-- The `os.walk` loop of `__main__` (lines 306-318), from a given current
working directory: collect the sorted mfiles per directory, and for each
non-empty match set `chdir` there, invoke the run, and on a normal return
`chdir` back to the master root; a process-terminating run outcome ends the
dispatch on the spot with the working directory still inside that
directory. -/
def dispatchFrom (masterroot : String) (pre : String)
    (runIn : String → List String → RunOutcome) :
    List WalkDir → String → DispatchResult
  | [], cwd => ⟨[], [], cwd, true⟩
  | d :: rest, cwd =>
    let mfiles := sortFiles (d.files.filter (fun s => ppMatchStr pre s))
    if mfiles.isEmpty then dispatchFrom masterroot pre runIn rest cwd
    else
      let out := runIn d.root mfiles
      if isProcessExit out then ⟨[(d.root, mfiles)], [d.root], d.root, false⟩
      else
        let r := dispatchFrom masterroot pre runIn rest masterroot
        ⟨(d.root, mfiles) :: r.invocations,
         masterroot :: r.cwdAfterInvocation, r.finalCwd, r.completed⟩

/-- Batch-mode dispatch, started from the master root directory. -/
def dispatch (masterroot pre : String)
    (runIn : String → List String → RunOutcome)
    (walk : List WalkDir) : DispatchResult :=
  dispatchFrom masterroot pre runIn walk masterroot

/-- Events the validation phase may emit: open errors, log lines and
per-file pair reports.  Stage invocations, summaries and aborts only ever
come from the stage sequence. -/
def plainEv : Ev → Bool
  | .openError _ => true
  | .logError _ => true
  | .pairReport _ _ => true
  | _ => false

/-- Reporter stage a summary message belongs to. -/
def summaryStage : SummaryMsg → Stage
  | .regAll => .register
  | .regNone => .register
  | .regPartial _ _ => .register
  | .phot _ => .photometry
  | .calibNone => .calibrate
  | .calibZp => .calibrate
  | .distillTarget => .distill
  | .distillNoTarget => .distill

/-- Extract the reporter stage of a summary event. -/
def summaryEv : Ev → Option Stage
  | .summary m => some (summaryStage m)
  | _ => none

/-- The sequence of reporter stages for which a summary string was passed
to the reporter, in emission order. -/
def summariesOf (evs : List Ev) : List Stage := evs.filterMap summaryEv

/-- True on the calibration-abort diagnostic event. -/
def isCalAbortEv : Ev → Bool
  | .abort t => t == "pp_calibrate"
  | _ => false

/-- Whether the trace records the calibration abort (i.e. the calibration
call returned no usable result). -/
def hasCalAbort (evs : List Ev) : Bool := evs.any isCalAbortEv

/-- Keep the reporter stages that completed: register, photometry and
distill complete whenever invoked; calibrate completes only when no
calibration abort was recorded. -/
def stageKeep (calAborted : Bool) : Ev → Option Stage
  | .stage .register => some .register
  | .stage .photometry => some .photometry
  | .stage .calibrate => if calAborted then none else some .calibrate
  | .stage .distill => some .distill
  | _ => none

/-- The sequence of completed reporter stages of a run trace, in
invocation order. -/
def reporterStagesCompleted (evs : List Ev) : List Stage :=
  evs.filterMap (stageKeep (hasCalAbort evs))

/-- True when the trace contains any per-file (file, tag) pair report. -/
def hasPairReport (evs : List Ev) : Bool :=
  evs.any (fun e => match e with | .pairReport _ _ => true | _ => false)

/-- Tags of a whole file list, one block of matching-key values per file. -/
def allTags (ks : List String) (hdr : String → Header) :
    List String → List String
  | [] => []
  | f :: fs => tagsOf ks (hdr f) ++ allTags ks hdr fs

/-- Spec-side file selection rule, stated from the spec's words for
comparison with the implemented pattern: the name starts with the given
lead and ends, case-insensitively, in a recognized image extension. -/
def recognizedExtensions : List String := [".fits", ".fts"]

/-- Spec-side selection predicate (see `recognizedExtensions`). -/
def specSelectsFile (pre s : String) : Bool :=
  pre.toList.isPrefixOf s.toList &&
    recognizedExtensions.any
      (fun e => e.toList.isSuffixOf (s.toList.map Char.toLower))

/-- Telescope parameters used by the concrete scenarios: filter `R`
translates to a real name, filter `Z` to the no-calibration sentinel. -/
def obsFix : Obsparam := ⟨5, 10, [("R", some "R"), ("Z", none)]⟩

/-- Configuration used by the concrete scenarios. -/
def cfgFix : Conf :=
  ⟨["INSTRUME"], ["FILTER"], [("T1", "tel1")], [("tel1", obsFix)], 3⟩

/-- A header carrying instrument `T1` and the calibratable filter `R`. -/
def hdrR : Header := [("INSTRUME", "T1"), ("FILTER", "R")]

/-- A header carrying instrument `T1` and filter `Z`, which translates to
the no-calibration sentinel. -/
def hdrZ : Header := [("INSTRUME", "T1"), ("FILTER", "Z")]

/-- Collaborators for a fully successful run. -/
def envOk : Env :=
  ⟨fun _ => some hdrR, fun fs => ⟨fs, []⟩, fun _ => ⟨5, 1⟩,
   fun _ => some ⟨[⟨25, 1⟩], "cat", ["c1"]⟩, fun _ => ⟨["t1", "control_star"]⟩⟩

/-- Open oracle where only `bad.fits` is unreadable. -/
def c4open : String → Option Header :=
  fun f => if f = "bad.fits" then none else some hdrR

/-- Collaborators for the unreadable-file scenario. -/
def c4env : Env :=
  ⟨c4open, fun fs => ⟨fs, []⟩, fun _ => ⟨5, 1⟩, fun _ => none, fun _ => ⟨[]⟩⟩

/-- Open oracle tagging `a.fits` with instrument `T1` and every other file
with instrument `T2`. -/
def c5open : String → Option Header := fun f =>
  if f = "a.fits" then some [("INSTRUME", "T1"), ("FILTER", "R")]
  else some [("INSTRUME", "T2"), ("FILTER", "R")]

/-- Collaborators for the heterogeneous-instrument scenario. -/
def c5env : Env :=
  ⟨c5open, fun fs => ⟨fs, []⟩, fun _ => ⟨5, 1⟩, fun _ => none, fun _ => ⟨[]⟩⟩

/-- Open oracle with two candidate instrument keys present in one header. -/
def c3open : String → Option Header :=
  fun _ => some [("TELID", "X"), ("INSTRUME", "Y"), ("FILTER", "R")]

/-- Collaborators where the filter resolves to the sentinel and
registration returns zero survivors. -/
def envSentinelZero : Env :=
  ⟨fun _ => some hdrZ, fun fs => ⟨[], fs⟩, fun _ => ⟨5, 1⟩,
   fun _ => none, fun _ => ⟨[]⟩⟩

/-- Collaborators where the filter resolves to the sentinel and
registration succeeds for every frame. -/
def envSentinel : Env :=
  ⟨fun _ => some hdrZ, fun fs => ⟨fs, []⟩, fun _ => ⟨5, 1⟩,
   fun _ => none, fun _ => ⟨[]⟩⟩

/-- Collaborators where the filter is calibratable but registration
returns zero survivors. -/
def envAbort : Env :=
  ⟨fun _ => some hdrR, fun fs => ⟨[], fs⟩, fun _ => ⟨5, 1⟩,
   fun _ => none, fun _ => ⟨[]⟩⟩

/-- Collaborators where everything succeeds up to calibration, which
returns no usable result. -/
def envCalibFail : Env :=
  ⟨fun _ => some hdrR, fun fs => ⟨fs, []⟩, fun _ => ⟨5, 1⟩,
   fun _ => none, fun _ => ⟨[]⟩⟩

/-- The directory tree of the batch-dispatch scenario: the master root
(no data files), `A` with three matching frames and a stray file, `B` with
no matching file, and `C` with two matching frames. -/
def treeWalk : List WalkDir :=
  [⟨"/master", []⟩,
   ⟨"/master/A", ["data3.fits", "data1.fits", "data2.fits", "README.md"]⟩,
   ⟨"/master/B", ["README.md"]⟩,
   ⟨"/master/C", ["data5.fits", "data4.fits"]⟩]

theorem all_plain_map_openError (l : List String) :
    (l.map Ev.openError).all plainEv = true := by
  induction l with
  | nil => rfl
  | cons a l ih => simp [plainEv, ih]

theorem pairLoop_plain : ∀ fs ts : List String,
    ((pairLoop fs ts).1).all plainEv = true
  | [], _ => rfl
  | _ :: _, [] => rfl
  | f :: fs, t :: ts => by
    simpa [pairLoop, plainEv] using pairLoop_plain fs ts

theorem phase1_fail_plain {cfg : Conf} {env : Env} {files : List String}
    {o : RunOutcome} {evs : List Ev}
    (h : phase1 cfg env files = .fail o evs) : evs.all plainEv = true := by
  simp only [phase1] at h
  repeat' split at h
  all_goals first
    | (cases h; exact all_plain_map_openError _)
    | (cases h; simp [plainEv, all_plain_map_openError, pairLoop_plain])
    | cases h

theorem phase1_ok_plain {cfg : Conf} {env : Env} {files : List String}
    {ctx : Ctx} {evs : List Ev}
    (h : phase1 cfg env files = .ok ctx evs) : evs.all plainEv = true := by
  simp only [phase1] at h
  repeat' split at h
  all_goals first
    | (cases h; exact all_plain_map_openError _)
    | cases h

theorem plain_no_stage {evs : List Ev} (h : evs.all plainEv = true)
    (s : Stage) : Ev.stage s ∉ evs := by
  intro hm
  have := List.all_eq_true.mp h _ hm
  simp [plainEv] at this

theorem plain_no_abort {evs : List Ev} (h : evs.all plainEv = true)
    (t : String) : Ev.abort t ∉ evs := by
  intro hm
  have := List.all_eq_true.mp h _ hm
  simp [plainEv] at this

theorem plain_summariesOf {evs : List Ev} (h : evs.all plainEv = true) :
    summariesOf evs = [] := by
  induction evs with
  | nil => rfl
  | cons e evs ih =>
    rw [List.all_cons, Bool.and_eq_true] at h
    obtain ⟨h1, h2⟩ := h
    cases e with
    | openError f => simpa [summariesOf, summaryEv] using ih h2
    | logError m => simpa [summariesOf, summaryEv] using ih h2
    | pairReport f t => simpa [summariesOf, summaryEv] using ih h2
    | stage s => simp [plainEv] at h1
    | summary m => simp [plainEv] at h1
    | abort t => simp [plainEv] at h1

theorem plain_filterMap_stageKeep {evs : List Ev}
    (h : evs.all plainEv = true) (b : Bool) :
    evs.filterMap (stageKeep b) = [] := by
  induction evs with
  | nil => rfl
  | cons e evs ih =>
    rw [List.all_cons, Bool.and_eq_true] at h
    obtain ⟨h1, h2⟩ := h
    cases e with
    | openError f => simpa [stageKeep] using ih h2
    | logError m => simpa [stageKeep] using ih h2
    | pairReport f t => simpa [stageKeep] using ih h2
    | stage s => simp [plainEv] at h1
    | summary m => simp [plainEv] at h1
    | abort t => simp [plainEv] at h1

theorem plain_hasCalAbort {evs : List Ev} (h : evs.all plainEv = true) :
    hasCalAbort evs = false := by
  induction evs with
  | nil => rfl
  | cons e evs ih =>
    rw [List.all_cons, Bool.and_eq_true] at h
    obtain ⟨h1, h2⟩ := h
    cases e with
    | openError f => simpa [hasCalAbort, isCalAbortEv] using ih h2
    | logError m => simpa [hasCalAbort, isCalAbortEv] using ih h2
    | pairReport f t => simpa [hasCalAbort, isCalAbortEv] using ih h2
    | stage s => simp [plainEv] at h1
    | summary m => simp [plainEv] at h1
    | abort t => simp [plainEv] at h1

/-- C1, counterexample: a run in which registration returns zero surviving
frames but the canonical filter name is the no-calibration sentinel.  The
register stage is invoked and returns no survivors, yet the
registration-abort diagnostic is never recorded: the run returns the stop
status with no abort event, refuting the claim as stated for this run. -/
theorem C1_counterexample_filter_precedes_abort :
    Ev.stage .register ∈ (runPipeline cfgFix envSentinelZero true ["f1.fits"]).2 ∧
    (envSentinelZero.registerResult ["f1.fits"]).goodfits = [] ∧
    Ev.abort "pp_registration" ∉
      (runPipeline cfgFix envSentinelZero true ["f1.fits"]).2 ∧
    (runPipeline cfgFix envSentinelZero true ["f1.fits"]).1 = .retStop := by
  decide

/-- C3, counterexample: a readable file whose header carries two candidate
instrument keys.  The header inspector records one tag per matching key
(the source loop has no break), so this single file contributes the two
tags `X` and `Y` rather than exactly one tag `X` from the first candidate
key, refuting the claim as stated. -/
theorem C3_counterexample_multiple_keys :
    (headerScan c3open ["TELID", "INSTRUME"] ["FILTER"] ["f1.fits"]).retained
      = ["f1.fits"] ∧
    (headerScan c3open ["TELID", "INSTRUME"] ["FILTER"] ["f1.fits"]).instruments
      = ["X", "Y"] ∧
    (headerScan c3open ["TELID", "INSTRUME"] ["FILTER"] ["f1.fits"]).instruments
      ≠ ["X"] := by
  decide

/-- C4: with the batch `[bad.fits, good.fits]` and only `bad.fits`
unreadable, the failing file is dropped and an error recorded, but the
`pop` inside the enumerating loop skips `good.fits` entirely: it stays in
the FrameSet yet is never opened (it is readable, but contributes no tag),
so the run ends in the instrument-identification failure instead of
processing the remaining readable file. -/
theorem C4_pop_skips_next_file :
    headerScan c4open ["INSTRUME"] ["FILTER"] ["bad.fits", "good.fits"] =
      ⟨["good.fits"], [], [], ["bad.fits"]⟩ ∧
    (c4open "good.fits").isSome = true ∧
    tagsOf ["INSTRUME"] hdrR = ["T1"] ∧
    (runPipeline cfgFix c4env true ["bad.fits", "good.fits"]).1 =
      .raisedNoInstrument ∧
    (runPipeline cfgFix c4env true ["bad.fits", "good.fits"]).2 =
      [Ev.openError "bad.fits"] := by
  decide

/-- C5: a batch with two distinct instrument tags.  The run terminates at
once, but via the NameError raised while evaluating the misspelled
variable in the console print of the multi-instrument branch, before the
per-file reporting loop runs: no (file, tag) pair is ever reported. -/
theorem C5_no_pair_reports_on_crash :
    distinctCount
      (headerScan c5env.openH cfgFix.instrument_keys cfgFix.filter_keys
        ["a.fits", "b.fits"]).instruments = 2 ∧
    (runPipeline cfgFix c5env true ["a.fits", "b.fits"]).1 =
      .crashNameError ∧
    hasPairReport (runPipeline cfgFix c5env true ["a.fits", "b.fits"]).2 =
      false := by
  decide

/-- C6: the dispatcher pattern is a character class, not an alternation of
extensions, so `data_notes.txt` — which ends in no recognized image
extension — is selected for the dataset, while the spec-side rule rejects
it. -/
theorem C6_regex_overmatch :
    ppMatchStr "data" "data_notes.txt" = true ∧
    specSelectsFile "data" "data_notes.txt" = false ∧
    ppMatchStr "data" "data1.fits" = true ∧
    ppMatchStr "data" "README.md" = false := by
  decide

/-- C8: in the batch tree with datasets in `A` and `C`, a calibration
failure while processing `A` terminates the whole process (`sys.exit(1)`),
so `C` is never attempted, the walk does not complete, and the working
directory is left inside `A`. -/
theorem C8_calib_exit_kills_walk :
    (runPipeline cfgFix envCalibFail true
      ["data1.fits", "data2.fits", "data3.fits"]).1 = .exitCalib ∧
    dispatch "/master" "data"
      (fun _ fs => (runPipeline cfgFix envCalibFail true fs).1) treeWalk =
      ⟨[("/master/A", ["data1.fits", "data2.fits", "data3.fits"])],
       ["/master/A"], "/master/A", false⟩ := by
  decide

/-- C9, counterexample: a single-dataset run with the diagnostics summary
left at its unrequested setting.  All four reporter stages complete, yet
no summary string at all is passed to the reporter, refuting the claim
that one string per completed stage is emitted in single-dataset mode as
well. -/
theorem C9_counterexample_single_mode_silent :
    reporterStagesCompleted
      (runPipeline cfgFix envOk false ["f1.fits", "f2.fits"]).2 =
      [.register, .photometry, .calibrate, .distill] ∧
    summariesOf (runPipeline cfgFix envOk false ["f1.fits", "f2.fits"]).2 =
      [] ∧
    summariesOf (runPipeline cfgFix envOk false ["f1.fits", "f2.fits"]).2 ≠
      reporterStagesCompleted
        (runPipeline cfgFix envOk false ["f1.fits", "f2.fits"]).2 := by
  decide

theorem phase2_sentinel_eq (env : Env) (u : Bool) (ctx : Ctx)
    (hfn : ctx.filtername = none) :
    phase2 env u ctx =
      (.retStop,
       [Ev.stage .prepare, Ev.stage .register] ++
         condSummary u
           (registerSummary (env.registerResult ctx.retained).goodfits.length
             (env.registerResult ctx.retained).badfits.length
             ctx.retained.length)) := by
  simp only [phase2, hfn]

theorem phase2_abort_eq (env : Env) (u : Bool) (ctx : Ctx) (fn : String)
    (hfn : ctx.filtername = some fn)
    (h3 : (env.registerResult ctx.retained).goodfits = []) :
    phase2 env u ctx =
      (.retStop,
       [Ev.stage .prepare, Ev.stage .register] ++
         condSummary u
           (registerSummary 0
             (env.registerResult ctx.retained).badfits.length
             ctx.retained.length) ++ [Ev.abort "pp_registration"]) := by
  simp only [phase2, hfn, h3]
  simp

theorem headerScan_all_readable (openH : String → Option Header)
    (kI kF : List String) (hdr : String → Header) :
    ∀ files : List String, (∀ f ∈ files, openH f = some (hdr f)) →
      headerScan openH kI kF files =
        ⟨files, allTags kI hdr files, allTags kF hdr files, []⟩ := by
  intro files
  induction files with
  | nil => intro _; rfl
  | cons f fs ih =>
    intro h
    have hf : openH f = some (hdr f) := h f (by simp)
    have hr := ih (fun g hg => h g (List.mem_cons_of_mem _ hg))
    cases fs with
    | nil => simp [headerScan, hf, allTags]
    | cons g fs2 => simp [headerScan, hf, hr, allTags]

theorem allTags_length_one (ks : List String) (hdr : String → Header) :
    ∀ files : List String,
      (∀ f ∈ files, (tagsOf ks (hdr f)).length = 1) →
      (allTags ks hdr files).length = files.length := by
  intro files
  induction files with
  | nil => intro _; rfl
  | cons f fs ih =>
    intro h
    have h1 := h f (by simp)
    have hr := ih (fun g hg => h g (List.mem_cons_of_mem _ hg))
    simp [allTags, h1, hr]
    omega

theorem summaryStage_registerSummary (a b c : Nat) :
    summaryStage (registerSummary a b c) = .register := by
  unfold registerSummary
  split
  · rfl
  · split <;> rfl

theorem summaryStage_ite (p : Prop) [Decidable p] (m1 m2 : SummaryMsg) :
    summaryStage (if p then m1 else m2) =
      if p then summaryStage m1 else summaryStage m2 := by
  split <;> rfl

theorem summaryStage_phot (b : Bool) :
    summaryStage (.phot b) = .photometry := rfl

theorem summaryStage_calibNone : summaryStage .calibNone = .calibrate := rfl

theorem summaryStage_calibZp : summaryStage .calibZp = .calibrate := rfl

theorem summaryStage_distillT : summaryStage .distillTarget = .distill := rfl

theorem summaryStage_distillN : summaryStage .distillNoTarget = .distill := rfl

theorem isCalAbortEv_reg : isCalAbortEv (Ev.abort "pp_registration") = false := by
  decide

theorem isCalAbortEv_cal : isCalAbortEv (Ev.abort "pp_calibrate") = true := by
  decide

theorem phase2_summaries_true (env : Env) (ctx : Ctx) :
    summariesOf (phase2 env true ctx).2 =
      (phase2 env true ctx).2.filterMap
        (stageKeep (hasCalAbort (phase2 env true ctx).2)) := by
  simp only [phase2]
  cases hfn : ctx.filtername with
  | none =>
    simp [summariesOf, condSummary, summaryEv, hasCalAbort, isCalAbortEv,
      stageKeep, summaryStage_registerSummary]
  | some fn =>
    by_cases hg : (env.registerResult ctx.retained).goodfits.isEmpty
    · simp [hg, summariesOf, condSummary, summaryEv, hasCalAbort,
        isCalAbortEv_reg, isCalAbortEv, stageKeep, summaryStage_registerSummary]
    · cases hc : env.calibResult (env.registerResult ctx.retained).goodfits with
      | none =>
        simp [hg, hc, summariesOf, condSummary, summaryEv, hasCalAbort,
          isCalAbortEv_cal, isCalAbortEv, stageKeep,
          summaryStage_registerSummary, summaryStage_phot]
      | some cal =>
        simp [hg, hc, summariesOf, condSummary, summaryEv, hasCalAbort,
          isCalAbortEv, stageKeep, summaryStage_registerSummary,
          summaryStage_ite, summaryStage_phot, summaryStage_calibNone,
          summaryStage_calibZp, summaryStage_distillT, summaryStage_distillN]

theorem phase2_summaries_false (env : Env) (ctx : Ctx) :
    summariesOf (phase2 env false ctx).2 = [] := by
  simp only [phase2]
  cases hfn : ctx.filtername with
  | none => simp [summariesOf, condSummary, summaryEv]
  | some fn =>
    by_cases hg : (env.registerResult ctx.retained).goodfits.isEmpty
    · simp [hg, summariesOf, condSummary, summaryEv]
    · cases hc : env.calibResult (env.registerResult ctx.retained).goodfits with
      | none => simp [hg, hc, summariesOf, condSummary, summaryEv]
      | some cal => simp [hg, hc, summariesOf, condSummary, summaryEv]

/-- C1, amended: for every run whose validation succeeds with a canonical
filter name other than the no-calibration sentinel, if the register stage
returns zero surviving frames then none of photometry, calibration or
distillation is invoked and the registration-abort diagnostic is recorded
before the run returns its stop status.  (The unamended claim omits the
filter condition; `C1_counterexample_filter_precedes_abort` shows the
sentinel case returns without the abort diagnostic.) -/
theorem C1_zero_survivors_abort_amended (cfg : Conf) (env : Env) (u : Bool)
    (files : List String) (ctx : Ctx) (evs : List Ev)
    (h1 : phase1 cfg env files = .ok ctx evs)
    (h2 : ctx.filtername ≠ none)
    (h3 : (env.registerResult ctx.retained).goodfits = []) :
    (runPipeline cfg env u files).1 = .retStop ∧
    Ev.abort "pp_registration" ∈ (runPipeline cfg env u files).2 ∧
    Ev.stage .photometry ∉ (runPipeline cfg env u files).2 ∧
    Ev.stage .calibrate ∉ (runPipeline cfg env u files).2 ∧
    Ev.stage .distill ∉ (runPipeline cfg env u files).2 := by
  have hp := phase1_ok_plain h1
  obtain ⟨fn, hfn⟩ : ∃ fn, ctx.filtername = some fn := by
    cases hf : ctx.filtername
    · exact absurd hf h2
    · exact ⟨_, rfl⟩
  have h2eq := phase2_abort_eq env u ctx fn hfn h3
  have hnp := plain_no_stage hp
  simp only [runPipeline, h1, h2eq]
  cases u <;>
    simp [condSummary, hnp Stage.photometry, hnp Stage.calibrate,
      hnp Stage.distill]

/-- C1, witness: a concrete run with filter `R` (not the sentinel) and a
registration returning zero survivors, satisfying the amended theorem. -/
theorem C1_zero_survivors_abort_witness :
    phase1 cfgFix envAbort ["f1.fits"] =
      .ok ⟨["f1.fits"], "tel1", obsFix, some "R"⟩ [] ∧
    ((⟨["f1.fits"], "tel1", obsFix, some "R"⟩ : Ctx).filtername ≠ none) ∧
    (envAbort.registerResult ["f1.fits"]).goodfits = [] ∧
    ((runPipeline cfgFix envAbort true ["f1.fits"]).1 = .retStop ∧
     Ev.abort "pp_registration" ∈
       (runPipeline cfgFix envAbort true ["f1.fits"]).2 ∧
     Ev.stage .photometry ∉ (runPipeline cfgFix envAbort true ["f1.fits"]).2 ∧
     Ev.stage .calibrate ∉ (runPipeline cfgFix envAbort true ["f1.fits"]).2 ∧
     Ev.stage .distill ∉ (runPipeline cfgFix envAbort true ["f1.fits"]).2) :=
  ⟨by decide, by decide, by decide,
   C1_zero_survivors_abort_amended cfgFix envAbort true ["f1.fits"]
     ⟨["f1.fits"], "tel1", obsFix, some "R"⟩ []
     (by decide) (by decide) (by decide)⟩

/-- C2: for every run whose validation succeeds with the canonical filter
name resolving to the no-calibration sentinel, the run returns the stop
status right after the register stage with no abort diagnostic of any
kind, and photometry, calibration and distillation are never invoked. -/
theorem C2_sentinel_stop (cfg : Conf) (env : Env) (u : Bool)
    (files : List String) (ctx : Ctx) (evs : List Ev)
    (h1 : phase1 cfg env files = .ok ctx evs)
    (h2 : ctx.filtername = none) :
    (runPipeline cfg env u files).1 = .retStop ∧
    Ev.stage .register ∈ (runPipeline cfg env u files).2 ∧
    (∀ t, Ev.abort t ∉ (runPipeline cfg env u files).2) ∧
    Ev.stage .photometry ∉ (runPipeline cfg env u files).2 ∧
    Ev.stage .calibrate ∉ (runPipeline cfg env u files).2 ∧
    Ev.stage .distill ∉ (runPipeline cfg env u files).2 := by
  have hp := phase1_ok_plain h1
  have hnp := plain_no_stage hp
  have hna := plain_no_abort hp
  have h2eq := phase2_sentinel_eq env u ctx h2
  simp only [runPipeline, h1, h2eq]
  cases u <;>
    simp [condSummary, hnp Stage.photometry, hnp Stage.calibrate,
      hnp Stage.distill, hna]

/-- C2, witness: a concrete run whose filter `Z` translates to the
sentinel and whose registration succeeds for every frame. -/
theorem C2_sentinel_stop_witness :
    phase1 cfgFix envSentinel ["f1.fits"] =
      .ok ⟨["f1.fits"], "tel1", obsFix, none⟩ [] ∧
    ((⟨["f1.fits"], "tel1", obsFix, none⟩ : Ctx).filtername = none) ∧
    ((runPipeline cfgFix envSentinel true ["f1.fits"]).1 = .retStop ∧
     Ev.stage .register ∈ (runPipeline cfgFix envSentinel true ["f1.fits"]).2 ∧
     (∀ t, Ev.abort t ∉ (runPipeline cfgFix envSentinel true ["f1.fits"]).2) ∧
     Ev.stage .photometry ∉
       (runPipeline cfgFix envSentinel true ["f1.fits"]).2 ∧
     Ev.stage .calibrate ∉ (runPipeline cfgFix envSentinel true ["f1.fits"]).2 ∧
     Ev.stage .distill ∉ (runPipeline cfgFix envSentinel true ["f1.fits"]).2) :=
  ⟨by decide, by decide,
   C2_sentinel_stop cfgFix envSentinel true ["f1.fits"]
     ⟨["f1.fits"], "tel1", obsFix, none⟩ [] (by decide) (by decide)⟩

/-- C3, amended: for every batch whose files are all readable, the header
inspector retains every file and records, per file, one instrument tag per
candidate instrument key present in its header and one filter tag per
candidate filter key present, concatenated in file order (not exactly one
first-key tag per file); the tag sequences are positionally aligned with
the retained FrameSet exactly when each file has exactly one matching key
of each kind.  (`C3_counterexample_multiple_keys` shows a file with two
matching keys contributing two tags.) -/
theorem C3_tags_per_matching_key (openH : String → Option Header)
    (kI kF : List String) (hdr : String → Header) (files : List String)
    (h : ∀ f ∈ files, openH f = some (hdr f)) :
    headerScan openH kI kF files =
      ⟨files, allTags kI hdr files, allTags kF hdr files, []⟩ ∧
    ((∀ f ∈ files, (tagsOf kI (hdr f)).length = 1) →
      (allTags kI hdr files).length = files.length) ∧
    ((∀ f ∈ files, (tagsOf kF (hdr f)).length = 1) →
      (allTags kF hdr files).length = files.length) :=
  ⟨headerScan_all_readable openH kI kF hdr files h,
   fun h1 => allTags_length_one kI hdr files h1,
   fun h1 => allTags_length_one kF hdr files h1⟩

/-- C3, witness: a concrete two-file batch, all readable, one matching key
of each kind per file. -/
theorem C3_tags_per_matching_key_witness :
    (∀ f ∈ ["f1.fits", "f2.fits"],
      (fun _ => some hdrR : String → Option Header) f =
        some ((fun _ => hdrR) f)) ∧
    (headerScan (fun _ => some hdrR) ["INSTRUME"] ["FILTER"]
        ["f1.fits", "f2.fits"] =
      ⟨["f1.fits", "f2.fits"],
       allTags ["INSTRUME"] (fun _ => hdrR) ["f1.fits", "f2.fits"],
       allTags ["FILTER"] (fun _ => hdrR) ["f1.fits", "f2.fits"], []⟩ ∧
     ((∀ f ∈ ["f1.fits", "f2.fits"],
        (tagsOf ["INSTRUME"] ((fun _ => hdrR) f)).length = 1) →
       (allTags ["INSTRUME"] (fun _ => hdrR) ["f1.fits", "f2.fits"]).length =
         (["f1.fits", "f2.fits"] : List String).length) ∧
     ((∀ f ∈ ["f1.fits", "f2.fits"],
        (tagsOf ["FILTER"] ((fun _ => hdrR) f)).length = 1) →
       (allTags ["FILTER"] (fun _ => hdrR) ["f1.fits", "f2.fits"]).length =
         (["f1.fits", "f2.fits"] : List String).length)) :=
  ⟨by decide,
   C3_tags_per_matching_key (fun _ => some hdrR) ["INSTRUME"] ["FILTER"]
     (fun _ => hdrR) ["f1.fits", "f2.fits"] (by decide)⟩

/-- C7: over the scenario tree (master root without data, `A` with three
matching frames, `B` with none, `C` with two), whenever the runs in `A`
and `C` hand control back to the dispatcher, the pipeline is invoked
exactly twice — for `A` then `C` in traversal order, each with its matches
sorted lexicographically — and the working directory equals the master
root after each invocation and after the whole dispatch. -/
theorem C7_dispatch_two_invocations
    (runIn : String → List String → RunOutcome)
    (h1 : isProcessExit
      (runIn "/master/A" ["data1.fits", "data2.fits", "data3.fits"]) = false)
    (h2 : isProcessExit
      (runIn "/master/C" ["data4.fits", "data5.fits"]) = false) :
    dispatch "/master" "data" runIn treeWalk =
      ⟨[("/master/A", ["data1.fits", "data2.fits", "data3.fits"]),
        ("/master/C", ["data4.fits", "data5.fits"])],
       ["/master", "/master"], "/master", true⟩ := by
  have eM : sortFiles (List.filter (fun s => ppMatchStr "data" s)
      ([] : List String)) = [] := by decide
  have eA : sortFiles (List.filter (fun s => ppMatchStr "data" s)
      ["data3.fits", "data1.fits", "data2.fits", "README.md"]) =
      ["data1.fits", "data2.fits", "data3.fits"] := by decide
  have eB : sortFiles (List.filter (fun s => ppMatchStr "data" s)
      ["README.md"]) = [] := by decide
  have eC : sortFiles (List.filter (fun s => ppMatchStr "data" s)
      ["data5.fits", "data4.fits"]) = ["data4.fits", "data5.fits"] := by
    decide
  simp only [dispatch, treeWalk, dispatchFrom, eM, eA, eB, eC, h1, h2]
  simp

/-- C7, witness: both runs return normally. -/
theorem C7_dispatch_two_invocations_witness :
    isProcessExit
      ((fun _ _ => RunOutcome.retDone) "/master/A"
        ["data1.fits", "data2.fits", "data3.fits"]) = false ∧
    isProcessExit
      ((fun _ _ => RunOutcome.retDone) "/master/C"
        ["data4.fits", "data5.fits"]) = false ∧
    dispatch "/master" "data" (fun _ _ => RunOutcome.retDone) treeWalk =
      ⟨[("/master/A", ["data1.fits", "data2.fits", "data3.fits"]),
        ("/master/C", ["data4.fits", "data5.fits"])],
       ["/master", "/master"], "/master", true⟩ :=
  ⟨by decide, by decide,
   C7_dispatch_two_invocations (fun _ _ => RunOutcome.retDone)
     (by decide) (by decide)⟩

/-- C9, amended: with the diagnostics summary enabled — which is what
batch mode does before dispatching — every run passes exactly one summary
string to the reporter per completed reporter stage (registration,
photometry, calibration with a usable result, distillation), in stage
order and none for skipped stages; with the summary not requested (the
single-dataset default), no string is passed at all.
(`C9_counterexample_single_mode_silent` refutes the unamended
single-dataset half.) -/
theorem C9_summaries_amended (cfg : Conf) (env : Env) (files : List String) :
    summariesOf (runPipeline cfg env true files).2 =
      reporterStagesCompleted (runPipeline cfg env true files).2 ∧
    summariesOf (runPipeline cfg env false files).2 = [] := by
  constructor
  · unfold runPipeline
    cases h : phase1 cfg env files with
    | fail o evs =>
      have hp := phase1_fail_plain h
      simp [reporterStagesCompleted, plain_summariesOf hp,
        plain_filterMap_stageKeep hp]
    | ok ctx evs =>
      have hp := phase1_ok_plain h
      have e1 : summariesOf (evs ++ (phase2 env true ctx).2) =
          summariesOf (phase2 env true ctx).2 := by
        unfold summariesOf
        rw [List.filterMap_append]
        have h0 : evs.filterMap summaryEv = [] := plain_summariesOf hp
        rw [h0, List.nil_append]
      have e2 : hasCalAbort (evs ++ (phase2 env true ctx).2) =
          hasCalAbort (phase2 env true ctx).2 := by
        unfold hasCalAbort
        rw [List.any_append]
        have h0 : evs.any isCalAbortEv = false := plain_hasCalAbort hp
        rw [h0]
        simp
      simp only [reporterStagesCompleted, e2]
      rw [List.filterMap_append]
      rw [plain_filterMap_stageKeep hp]
      simp only [List.nil_append]
      rw [e1]
      exact phase2_summaries_true env ctx
  · unfold runPipeline
    cases h : phase1 cfg env files with
    | fail o evs =>
      have hp := phase1_fail_plain h
      simp [plain_summariesOf hp]
    | ok ctx evs =>
      have hp := phase1_ok_plain h
      have e1 : summariesOf (evs ++ (phase2 env false ctx).2) =
          summariesOf (phase2 env false ctx).2 := by
        unfold summariesOf
        rw [List.filterMap_append]
        have h0 : evs.filterMap summaryEv = [] := plain_summariesOf hp
        rw [h0, List.nil_append]
      rw [e1]
      exact phase2_summaries_false env ctx

/-- C10: when the canonical filter name resolves to the no-calibration
sentinel and registration also returns zero surviving frames, the
filter-based stop takes precedence: the run returns the stop status, the
registration-abort diagnostic is never recorded, and photometry,
calibration and distillation are never invoked. -/
theorem C10_filter_stop_precedence (cfg : Conf) (env : Env) (u : Bool)
    (files : List String) (ctx : Ctx) (evs : List Ev)
    (h1 : phase1 cfg env files = .ok ctx evs)
    (h2 : ctx.filtername = none)
    (_h3 : (env.registerResult ctx.retained).goodfits = []) :
    (runPipeline cfg env u files).1 = .retStop ∧
    Ev.stage .register ∈ (runPipeline cfg env u files).2 ∧
    Ev.abort "pp_registration" ∉ (runPipeline cfg env u files).2 ∧
    Ev.stage .photometry ∉ (runPipeline cfg env u files).2 ∧
    Ev.stage .calibrate ∉ (runPipeline cfg env u files).2 ∧
    Ev.stage .distill ∉ (runPipeline cfg env u files).2 := by
  have hp := phase1_ok_plain h1
  have hnp := plain_no_stage hp
  have hna := plain_no_abort hp
  have h2eq := phase2_sentinel_eq env u ctx h2
  simp only [runPipeline, h1, h2eq]
  cases u <;>
    simp [condSummary, hnp Stage.photometry, hnp Stage.calibrate,
      hnp Stage.distill, hna]

/-- C10, witness: a concrete run with the sentinel filter `Z` and a
registration returning zero survivors. -/
theorem C10_filter_stop_precedence_witness :
    phase1 cfgFix envSentinelZero ["f1.fits"] =
      .ok ⟨["f1.fits"], "tel1", obsFix, none⟩ [] ∧
    ((⟨["f1.fits"], "tel1", obsFix, none⟩ : Ctx).filtername = none) ∧
    (envSentinelZero.registerResult ["f1.fits"]).goodfits = [] ∧
    ((runPipeline cfgFix envSentinelZero true ["f1.fits"]).1 = .retStop ∧
     Ev.stage .register ∈
       (runPipeline cfgFix envSentinelZero true ["f1.fits"]).2 ∧
     Ev.abort "pp_registration" ∉
       (runPipeline cfgFix envSentinelZero true ["f1.fits"]).2 ∧
     Ev.stage .photometry ∉
       (runPipeline cfgFix envSentinelZero true ["f1.fits"]).2 ∧
     Ev.stage .calibrate ∉
       (runPipeline cfgFix envSentinelZero true ["f1.fits"]).2 ∧
     Ev.stage .distill ∉
       (runPipeline cfgFix envSentinelZero true ["f1.fits"]).2) :=
  ⟨by decide, by decide, by decide,
   C10_filter_stop_precedence cfgFix envSentinelZero true ["f1.fits"]
     ⟨["f1.fits"], "tel1", obsFix, none⟩ []
     (by decide) (by decide) (by decide)⟩

/-- C7, counterexample: the same scenario tree with a run outcome that
terminates the process (a calibration failure, an outcome the pipeline can
produce).  The dispatcher makes only one invocation — not two — and the
working directory is left inside `/master/A`, not restored to the master
root, refuting the claim's `regardless of its outcome` clause as stated. -/
theorem C7_counterexample_exit_strands_dispatch :
    isProcessExit
      ((fun _ _ => RunOutcome.exitCalib) "/master/A"
        ["data1.fits", "data2.fits", "data3.fits"]) = true ∧
    dispatch "/master" "data" (fun _ _ => RunOutcome.exitCalib) treeWalk =
      ⟨[("/master/A", ["data1.fits", "data2.fits", "data3.fits"])],
       ["/master/A"], "/master/A", false⟩ ∧
    (dispatch "/master" "data" (fun _ _ => RunOutcome.exitCalib)
        treeWalk).invocations.length ≠ 2 ∧
    (dispatch "/master" "data" (fun _ _ => RunOutcome.exitCalib)
        treeWalk).finalCwd ≠ "/master" := by
  decide
